import Mathlib

/-!
Verification development for the LiteX/migen pattern-generation pipeline of
`litex_hdmi` (`patterns.py`, `tileset_to_mem.py`).

Modelling conventions (migen synchronous semantics):
* every `self.sync` register updates once per clock edge; a state record holds
  all registers and a step function maps (state, cycle input) to the next state;
* a synchronous memory read port returns `mem[adr(t)]` at cycle `t + 1`
  (the read enable is treated as asserted);
* `self.comb` signals are pure functions of the current state and inputs, and a
  comb signal not driven in the active FSM state takes its reset value (0);
* machine integers are modelled as `Nat`; bit slices `[a:b]` become
  division/modulus by the matching powers of two, `>> k` becomes `>>> k` and
  `& (2^k - 1)` becomes `% 2^k`.
-/

/-! ## WishboneReader (`patterns.py`, class `WishboneReader`) -/

/-- One cycle of input to `WishboneReader`: the `start` pulse, the bus
acknowledge `ack`, the bus read data `dat_r`, and the requested address. -/
structure WbInput where
  start : Bool
  ack   : Bool
  datR  : Nat
  addr  : Nat
deriving DecidableEq

/-- Registers of `WishboneReader`: the FSM state (`false` = IDLE, `true` =
READ), `data_reg`, and `ready_reg` (reset value 1). -/
structure WbState where
  fsmRead  : Bool
  dataReg  : Nat
  readyReg : Bool
deriving DecidableEq

/-- Reset state: FSM in IDLE, `data_reg = 0`, `ready_reg = 1`. -/
def wbInit : WbState := { fsmRead := false, dataReg := 0, readyReg := true }

/-- One clock edge of `WishboneReader`:
IDLE: `If(start, NextState("READ"))`;
READ: `If(ack, NextValue(data_reg, dat_r), NextValue(ready_reg, 1),
NextState("IDLE"))`; plus the separate
`self.sync += If(ongoing("READ") & ~ack, ready_reg.eq(0))`. -/
def wbStep (s : WbState) (i : WbInput) : WbState :=
  { fsmRead := if s.fsmRead then !i.ack else i.start
    dataReg := if s.fsmRead && i.ack then i.datR else s.dataReg
    readyReg := if s.fsmRead then (if i.ack then true else false) else s.readyReg }

/-- Combinational outputs: `self.data.eq(data_reg)`, `self.ready.eq(ready_reg)`;
strobe/cycle are asserted exactly in READ, with `adr = addr >> 2`. -/
def wbStb (s : WbState) : Bool := s.fsmRead

def wbAdr (s : WbState) (i : WbInput) : Nat := if s.fsmRead then i.addr >>> 2 else 0

/-- State after `t` cycles driven by the input stream `i`. -/
def wbRun (i : Nat → WbInput) : Nat → WbState
  | 0 => wbInit
  | t + 1 => wbStep (wbRun i t) (i t)

/-- Concrete input stream: a single `start` pulse at cycle 0 and the bus
acknowledge at cycle 2 carrying read data 305. -/
def wbStreamEx : Nat → WbInput :=
  fun t => { start := t == 0, ack := t == 2, datR := if t == 2 then 305 else 0, addr := 16 }

/-! ## Activation state machine shared by the pattern modules
(`HorizontalBarsPattern`, `SingleSpritePattern`, `MovingSpritePattern`,
`MovingSpritePatternFromFile` all instantiate the identical IDLE/RUN FSM). -/

/-- One cycle of the timing input stream (`vtg_sink` fields) together with the
downstream `source.ready`. -/
structure TimingIn where
  hcount : Nat
  vcount : Nat
  hsync : Bool
  vsync : Bool
  de    : Bool
  valid : Bool
  first : Bool
  last  : Bool
  sourceReady : Bool
deriving DecidableEq

/-- The activation condition of the IDLE state:
`valid & first & (hcount == 0) & (vcount == 0)`. -/
def activationCond (i : TimingIn) : Bool :=
  i.valid && i.first && (i.hcount == 0) && (i.vcount == 0)

/-- FSM state (`false` = IDLE, `true` = RUN) after one clock edge.  The FSM is
wrapped in `ResetInserter`, so an asserted `rst` forces IDLE; otherwise IDLE
moves to RUN exactly on the activation condition and RUN is absorbing. -/
def gateStep (rst : Bool) (s : Bool) (i : TimingIn) : Bool :=
  if rst then false
  else if s then true
  else activationCond i

/-- FSM state after `t` cycles (reset state IDLE). -/
def gateRun (rst : Nat → Bool) (i : Nat → TimingIn) : Nat → Bool
  | 0 => false
  | t + 1 => gateStep (rst t) (gateRun rst i t) (i t)

/-- Upstream ready: IDLE drives `vtg_sink.ready.eq(1)`, RUN drives
`vtg_sink.ready.eq(source.ready)`. -/
def gateReadyUp (s : Bool) (i : TimingIn) : Bool := if s then i.sourceReady else true

/-- `source.valid`: driven to `vtg_sink.valid` in RUN only (0 in IDLE). -/
def gateValidOut (s : Bool) (i : TimingIn) : Bool := s && i.valid

/-- `source.last`: passed through in RUN only. -/
def gateLastOut (s : Bool) (i : TimingIn) : Bool := s && i.last

/-- `source.de`: passed through in RUN only. -/
def gateDeOut (s : Bool) (i : TimingIn) : Bool := s && i.de

/-- `source.hsync`: passed through in RUN only. -/
def gateHsyncOut (s : Bool) (i : TimingIn) : Bool := s && i.hsync

/-- `source.vsync`: passed through in RUN only. -/
def gateVsyncOut (s : Bool) (i : TimingIn) : Bool := s && i.vsync

/-- A concrete timing sample used by the witnesses. -/
def timingEx : TimingIn :=
  { hcount := 3, vcount := 7, hsync := true, vsync := false, de := true,
    valid := true, first := false, last := true, sourceReady := true }

/-! ## MultiReg enable synchronizer and the FSM reset
(`patterns.py`: `enable = Signal(); self.specials += MultiReg(self.enable, enable)`
followed by `self.comb += fsm.reset.eq(~self.enable)`). -/

/-- First register of the two-stage `MultiReg` synchronizer (reset 0). -/
def mrS1 (e : Nat → Bool) : Nat → Bool
  | 0 => false
  | t + 1 => e t

/-- Second register of the two-stage `MultiReg` synchronizer: the synchronized
`enable` value. -/
def mrS2 (e : Nat → Bool) : Nat → Bool
  | 0 => false
  | t + 1 => mrS1 e t

/-- `fsm.reset` as the code drives it: `~self.enable`, the RAW enable input of
the same cycle (the synchronized copy `enable` is never consumed). -/
def fsmResetCode (e : Nat → Bool) (t : Nat) : Bool := !(e t)

/-- `fsm.reset` as claim C7 states it: the negation of the two-cycle
synchronized enable value. -/
def fsmResetClaim (e : Nat → Bool) (t : Nat) : Bool := !(mrS2 e t)

/-- Concrete enable stream: high on cycles 0 and 1, then low. -/
def enableEx (t : Nat) : Bool := decide (t < 2)

/-! ## MovingSpritePattern bounce motion (`patterns.py`, lines 246-288).
`SPRITE_W = SPRITE_H = 16`. -/

/-- Sprite registers: position, travel directions (`true` = increasing, the
reset value), and the `vsync_prev` edge-detection register. -/
structure SpriteSt where
  x : Nat
  y : Nat
  dirX : Bool
  dirY : Bool
  vsyncPrev : Bool
deriving DecidableEq

/-- Reset state: position (0,0), both directions increasing. -/
def spriteInit : SpriteSt :=
  { x := 0, y := 0, dirX := true, dirY := true, vsyncPrev := false }

/-- One axis of the bounce update, as written in the code:
`If(dir, If(pos + sdim >= dim - 1, dir.eq(0)).Else(pos.eq(pos + 1)))
 .Else(If(pos == 0, dir.eq(1)).Else(pos.eq(pos - 1)))`. -/
def axisStep (dim sdim pos : Nat) (dir : Bool) : Nat × Bool :=
  if dir then
    if dim - 1 ≤ pos + sdim then (pos, false) else (pos + 1, true)
  else
    if pos = 0 then (pos, true) else (pos - 1, false)

/-- One clock edge of the sprite state: the update body runs exactly under
`vsync_rise = vsync & ~vsync_prev`; `vsync_prev` always tracks `vsync`. -/
def spriteStep (hres vres : Nat) (s : SpriteSt) (vsyncIn : Bool) : SpriteSt :=
  if vsyncIn && !s.vsyncPrev then
    { x := (axisStep hres 16 s.x s.dirX).1
      dirX := (axisStep hres 16 s.x s.dirX).2
      y := (axisStep vres 16 s.y s.dirY).1
      dirY := (axisStep vres 16 s.y s.dirY).2
      vsyncPrev := vsyncIn }
  else
    { s with vsyncPrev := vsyncIn }

/-- Sprite state after `t` cycles driven by the `vsync` stream `vs`. -/
def spriteRun (hres vres : Nat) (vs : Nat → Bool) : Nat → SpriteSt
  | 0 => spriteInit
  | t + 1 => spriteStep hres vres (spriteRun hres vres vs t) (vs t)

/-- One axis as claim C3 literally words it: "if advancing would place the
sprite at or beyond screenDim - spriteDim - 1 the direction flips and the
position stays unchanged", i.e. flip when `pos + 1 ≥ dim - sdim - 1`. -/
def claimAxisStep (dim sdim pos : Nat) (dir : Bool) : Nat × Bool :=
  if dir then
    if dim - sdim - 1 ≤ pos + 1 then (pos, false) else (pos + 1, true)
  else
    if pos = 0 then (pos, true) else (pos - 1, false)

/-- The sprite step as claim C3 literally words it (same edge detection, the
literal flip threshold on each axis). -/
def claimSpriteStep (hres vres : Nat) (s : SpriteSt) (vsyncIn : Bool) : SpriteSt :=
  if vsyncIn && !s.vsyncPrev then
    { x := (claimAxisStep hres 16 s.x s.dirX).1
      dirX := (claimAxisStep hres 16 s.x s.dirX).2
      y := (claimAxisStep vres 16 s.y s.dirY).1
      dirY := (claimAxisStep vres 16 s.y s.dirY).2
      vsyncPrev := vsyncIn }
  else
    { s with vsyncPrev := vsyncIn }

/-- One axis as claim C3 amended: the direction flips (position unchanged)
exactly when the position has already reached `dim - sdim - 1`. -/
def amendedAxisStep (dim sdim pos : Nat) (dir : Bool) : Nat × Bool :=
  if dir then
    if dim - sdim - 1 ≤ pos then (pos, false) else (pos + 1, true)
  else
    if pos = 0 then (pos, true) else (pos - 1, false)

/-- The sprite step as claim C3 amended. -/
def amendedSpriteStep (hres vres : Nat) (s : SpriteSt) (vsyncIn : Bool) : SpriteSt :=
  if vsyncIn && !s.vsyncPrev then
    { x := (amendedAxisStep hres 16 s.x s.dirX).1
      dirX := (amendedAxisStep hres 16 s.x s.dirX).2
      y := (amendedAxisStep vres 16 s.y s.dirY).1
      dirY := (amendedAxisStep vres 16 s.y s.dirY).2
      vsyncPrev := vsyncIn }
  else
    { s with vsyncPrev := vsyncIn }

/-- Counterexample sprite state for claim C3: `x` one below the code's flip
threshold `640 - 16 - 1 = 623`, moving right. -/
def spriteCexSt : SpriteSt :=
  { x := 622, y := 100, dirX := true, dirY := true, vsyncPrev := false }

/-- Concrete `vsync` stream for the bounds witness: an edge every other cycle. -/
def vsyncStreamEx (t : Nat) : Bool := t % 2 == 0

/-! ## TilemapRenderer address pipeline (`patterns.py`, lines 55-105).
Source defaults: 640x480 screen, 16x16 tiles, hence `tiles_x = 40`,
`shift_w = shift_h = 4`, `mask_w = mask_h = 15`. -/

/-- A pixel coordinate sample (`hcount`, `vcount`). -/
structure Coord where
  hcount : Nat
  vcount : Nat
deriving DecidableEq

/-- Registers of the tilemap lookup pipeline: `tilemap_port.adr` (written in
`self.sync`), the synchronous-read data `tilemap_port.dat_r`, and the
`tile_id` register. -/
structure TmState where
  portAdr : Nat
  datR    : Nat
  tileId  : Nat
deriving DecidableEq

/-- Reset state of the pipeline registers. -/
def tmInit : TmState := { portAdr := 0, datR := 0, tileId := 0 }

/-- Combinational `tilemap_addr = tile_y * tiles_x + tile_x` with
`tile_x = hcount >> 4`, `tile_y = vcount >> 4`. -/
def tilemapAddr (c : Coord) : Nat := (c.vcount >>> 4) * 40 + (c.hcount >>> 4)

/-- One clock edge: `tilemap_port.adr <= tilemap_addr`,
`dat_r <= tilemap[adr]` (synchronous BRAM read), `tile_id <= dat_r`. -/
def tmStep (tilemap : List Nat) (s : TmState) (c : Coord) : TmState :=
  { portAdr := tilemapAddr c
    datR := tilemap.getD s.portAdr 0
    tileId := s.datR }

/-- Pipeline state after `t` cycles driven by the coordinate stream `c`. -/
def tmRun (tilemap : List Nat) (c : Nat → Coord) : Nat → TmState
  | 0 => tmInit
  | t + 1 => tmStep tilemap (tmRun tilemap c t) (c t)

/-- The combinational tile-ROM address the renderer produces at cycle `t`:
`tile_id * tile_w * tile_h + pixel_y * tile_w + pixel_x`, with
`pixel_x = hcount & 15`, `pixel_y = vcount & 15` taken from the CURRENT
cycle's coordinate. -/
def tmRomAddr (tilemap : List Nat) (c : Nat → Coord) (t : Nat) : Nat :=
  (tmRun tilemap c t).tileId * 16 * 16
    + ((c t).vcount % 16) * 16 + (c t).hcount % 16

/-- The ROM-address formula claim C1 states:
`tileMap[(vcount/tileH)*tilesX + hcount/tileW] * tileW*tileH
 + (vcount mod tileH)*tileW + (hcount mod tileW)` for one coordinate. -/
def specRomAddr (tilemap : List Nat) (c : Coord) : Nat :=
  tilemap.getD ((c.vcount / 16) * 40 + c.hcount / 16) 0 * 16 * 16
    + (c.vcount % 16) * 16 + c.hcount % 16

/-- Concrete tilemap whose first two tiles are distinct (tile ids 10 and 20). -/
def tilemapEx : List Nat := [10, 20]

/-- Concrete coordinate stream: a raster scan of row 0, `hcount t = t`. -/
def coordStreamEx (t : Nat) : Coord := { hcount := t, vcount := 0 }

/-! ## ROM line format: encoder (`tileset_to_mem.py`) and loader
(`patterns.py`, `MovingSpritePatternFromFile`). -/

/-- Lowercase hex digit, as produced by Python's `format(..., "06x")`. -/
def hexDigitChar (d : Nat) : Char :=
  match d with
  | 0 => '0' | 1 => '1' | 2 => '2' | 3 => '3' | 4 => '4'
  | 5 => '5' | 6 => '6' | 7 => '7' | 8 => '8' | 9 => '9'
  | 10 => 'a' | 11 => 'b' | 12 => 'c' | 13 => 'd' | 14 => 'e'
  | 15 => 'f' | _ => '0'

/-- Value of one hex digit character, as in Python's `int(line, 16)`. -/
def hexVal (c : Char) : Nat :=
  match c with
  | '0' => 0 | '1' => 1 | '2' => 2 | '3' => 3 | '4' => 4
  | '5' => 5 | '6' => 6 | '7' => 7 | '8' => 8 | '9' => 9
  | 'a' => 10 | 'b' => 11 | 'c' => 12 | 'd' => 13 | 'e' => 14
  | 'f' => 15 | _ => 0

/-- `f"{n:06x}"` for `n < 16^6`: six lowercase hex digits, most significant
first (zero-padded). -/
def hex6 (n : Nat) : String :=
  String.mk [hexDigitChar (n / 1048576 % 16), hexDigitChar (n / 65536 % 16),
    hexDigitChar (n / 4096 % 16), hexDigitChar (n / 256 % 16),
    hexDigitChar (n / 16 % 16), hexDigitChar (n % 16)]

/-- The per-pixel encoding of `tileset_to_mem`:
`rgb = (r << 16) | (g << 8) | b`, written as one hex line. -/
def encodeLine (r g b : Nat) : String := hex6 (r <<< 16 ||| g <<< 8 ||| b)

/-- Base-16 parse of one line, as in the sprite loader's `int(line, 16)`. -/
def parseHexLine (s : String) : Nat := s.data.foldl (fun a c => 16 * a + hexVal c) 0

/-- Decoding a line back to an RGB triple: parse, then take bit slices
`[16:24]`, `[8:16]`, `[0:8]` as the color outputs do. -/
def decodeLine (s : String) : Nat × Nat × Nat :=
  (parseHexLine s / 65536 % 256, parseHexLine s / 256 % 256, parseHexLine s % 256)

/-! ## BarsRenderer (spec section 4.4, static variant). -/

/-- Modelled from the spec: the stripe-boundary BarsRenderer of spec section
4.4 is not present under `src/` (the cited `HorizontalBarsPattern` is a
different, `vcount`-indexed color-bar pattern with neither boundaries nor a
pixel ROM).  Static boundary: `boundary[i] = i * screenW / stripeCount`. -/
def barBoundary (screenW stripeCount i : Nat) : Nat := i * screenW / stripeCount

/-- Modelled from the spec: "select barIndex = the highest i such that
hcount >= boundary[i]", realised as the documented fold in ascending index
order where the last satisfied boundary wins. -/
def barIndex (screenW stripeCount h : Nat) : Nat :=
  (List.range stripeCount).foldl
    (fun sel i => if barBoundary screenW stripeCount i ≤ h then i else sel) 0

/-- Modelled from the spec: `romAddress = barIndex * tileW*tileH +
(vcount mod tileH) * tileW + (hcount mod tileW)`. -/
def barsRomAddr (screenW stripeCount tileW tileH h v : Nat) : Nat :=
  barIndex screenW stripeCount h * (tileW * tileH) + (v % tileH) * tileW + h % tileW

/-- The claim C9 configuration: a 4-tile 16x16 ROM of solid colors red, green,
blue, white, in tile raster order (one 24-bit word per pixel). -/
def barsRomEx : List Nat :=
  List.replicate 256 0xff0000 ++ (List.replicate 256 0x00ff00 ++
    (List.replicate 256 0x0000ff ++ List.replicate 256 0xffffff))

/-- Modelled from the spec: output color = ROM lookup at the stripe address,
for the 640-wide screen with 4 stripes of 16x16 tiles. -/
def barsPixel (h v : Nat) : Nat := barsRomEx.getD (barsRomAddr 640 4 16 16 h v) 0

/-- The emitted RGB triple: bit slices `[16:24]`, `[8:16]`, `[0:8]` of the
ROM word. -/
def barsRGB (h v : Nat) : Nat × Nat × Nat :=
  (barsPixel h v / 65536 % 256, barsPixel h v / 256 % 256, barsPixel h v % 256)

/-! # Helper lemmas -/

/-- While a read request is outstanding the FSM stays in READ, and from the
second cycle after `start` the `ready` register is low. -/
theorem wb_read_outstanding (i : Nat → WbInput) (t : Nat)
    (h0 : (wbRun i t).fsmRead = false) (hst : (i t).start = true) :
    ∀ k, 1 ≤ k → (∀ j, 1 ≤ j → j < k → (i (t + j)).ack = false) →
      (wbRun i (t + k)).fsmRead = true ∧ (2 ≤ k → (wbRun i (t + k)).readyReg = false) := by
  intro k
  induction k with
  | zero => exact fun h _ => absurd h (by omega)
  | succ k ih =>
    intro _ hno
    by_cases hk : k = 0
    · subst hk
      have e : wbRun i (t + 1) = wbStep (wbRun i t) (i t) := rfl
      refine ⟨?_, fun h2 => absurd h2 (by omega)⟩
      rw [e]
      simp [wbStep, h0, hst]
    · have hk1 : 1 ≤ k := Nat.one_le_iff_ne_zero.mpr hk
      have ihk := ih hk1 (fun j hj1 hjk => hno j hj1 (by omega))
      have hackk : (i (t + k)).ack = false := hno k hk1 (by omega)
      have e : wbRun i (t + (k + 1)) = wbStep (wbRun i (t + k)) (i (t + k)) := rfl
      constructor
      · rw [e]
        simp [wbStep, ihk.1, hackk]
      · intro _
        rw [e]
        simp [wbStep, ihk.1, hackk]

/-- One bounce-axis update preserves the inductive bound `pos ≤ dim - 17`. -/
theorem axisStep_bound (dim pos : Nat) (dir : Bool) (hd : 17 ≤ dim)
    (hp : pos ≤ dim - 17) : (axisStep dim 16 pos dir).1 ≤ dim - 17 := by
  unfold axisStep
  split_ifs <;> dsimp only <;> omega

/-- Inductive invariant of the bouncing sprite: each coordinate stays at most
`screenDim - spriteDim - 1`. -/
theorem spriteRun_bound (hres vres : Nat) (vs : Nat → Bool) (t : Nat)
    (hh : 17 ≤ hres) (hv : 17 ≤ vres) :
    (spriteRun hres vres vs t).x ≤ hres - 17 ∧ (spriteRun hres vres vs t).y ≤ vres - 17 := by
  induction t with
  | zero => exact ⟨Nat.zero_le _, Nat.zero_le _⟩
  | succ t ih =>
    have e : spriteRun hres vres vs (t + 1)
        = spriteStep hres vres (spriteRun hres vres vs t) (vs t) := rfl
    rw [e]
    unfold spriteStep
    by_cases h : (vs t && !(spriteRun hres vres vs t).vsyncPrev) = true
    · rw [if_pos h]
      exact ⟨axisStep_bound _ _ _ hh ih.1, axisStep_bound _ _ _ hv ih.2⟩
    · rw [if_neg h]
      exact ⟨ih.1, ih.2⟩

/-- The code's axis update equals the amended-claim axis update: the Nat
inequalities `dim - 1 ≤ pos + sdim` and `dim - sdim - 1 ≤ pos` coincide. -/
theorem axisStep_eq_amended (dim sdim pos : Nat) (dir : Bool) :
    axisStep dim sdim pos dir = amendedAxisStep dim sdim pos dir := by
  unfold axisStep amendedAxisStep
  split_ifs <;> first | rfl | omega

/-! # Claim theorems -/

/-- Claim C6, counterexample: with a start pulse at cycle 0 and the bus
acknowledge at cycle 2, the request is outstanding during cycle 1 (the FSM is
in READ), yet `ready` is still high on that cycle — so `ready` is NOT low on
every cycle between `start` and the acknowledge.  (The data captured after the
acknowledge does equal `dat_r` of the acknowledge cycle.) -/
theorem wb_ready_between_start_and_ack_cex :
    (wbStreamEx 0).start = true ∧ (wbStreamEx 1).ack = false ∧ (wbStreamEx 2).ack = true
    ∧ (wbRun wbStreamEx 1).fsmRead = true
    ∧ (wbRun wbStreamEx 1).readyReg = true
    ∧ (wbRun wbStreamEx 3).dataReg = 305
    ∧ (wbRun wbStreamEx 3).readyReg = true := by decide

/-- Claim C6 (amended): after a start pulse taken in IDLE, `ready` keeps its
previous value on the first cycle after `start` (its deassertion is
registered), is low on every later cycle up to and including the acknowledge
cycle, and the data captured — presented with `ready` high on the cycle after
the acknowledge — equals exactly the value on `dat_r` during the acknowledge
cycle. -/
theorem wb_transaction_amended (i : Nat → WbInput) (t k : Nat)
    (hk : 1 ≤ k) (h0 : (wbRun i t).fsmRead = false) (hst : (i t).start = true)
    (hno : ∀ j, 1 ≤ j → j < k → (i (t + j)).ack = false)
    (hack : (i (t + k)).ack = true) :
    (wbRun i (t + 1)).readyReg = (wbRun i t).readyReg
    ∧ (∀ j, 2 ≤ j → j ≤ k → (wbRun i (t + j)).readyReg = false)
    ∧ (wbRun i (t + k + 1)).dataReg = (i (t + k)).datR
    ∧ (wbRun i (t + k + 1)).readyReg = true := by
  have hread := wb_read_outstanding i t h0 hst k hk hno
  refine ⟨?_, ?_, ?_, ?_⟩
  · have e : wbRun i (t + 1) = wbStep (wbRun i t) (i t) := rfl
    rw [e]
    simp [wbStep, h0]
  · intro j h2 hjk
    exact (wb_read_outstanding i t h0 hst j (by omega)
      (fun j2 hj1 hj2 => hno j2 hj1 (by omega))).2 h2
  · have e : wbRun i (t + k + 1) = wbStep (wbRun i (t + k)) (i (t + k)) := rfl
    rw [e]
    simp [wbStep, hread.1, hack]
  · have e : wbRun i (t + k + 1) = wbStep (wbRun i (t + k)) (i (t + k)) := rfl
    rw [e]
    simp [wbStep, hread.1, hack]

/-- Witness for the amended claim C6, at the concrete transaction with the
start pulse at cycle 0 and the acknowledge at cycle 2. -/
theorem wb_transaction_amended_witness :
    (wbRun wbStreamEx (0 + 1)).readyReg = (wbRun wbStreamEx 0).readyReg
    ∧ (∀ j, 2 ≤ j → j ≤ 2 → (wbRun wbStreamEx (0 + j)).readyReg = false)
    ∧ (wbRun wbStreamEx (0 + 2 + 1)).dataReg = (wbStreamEx (0 + 2)).datR
    ∧ (wbRun wbStreamEx (0 + 2 + 1)).readyReg = true :=
  wb_transaction_amended wbStreamEx 0 2 (by decide) (by decide) (by decide)
    (fun j h1 h2 => by
      have hj : j = 1 := by omega
      subst hj
      decide)
    (by decide)

/-- Claim C10: immediately after reset, before any start pulse has completed,
`WishboneReader` already presents `ready = 1` and `data = 0` (the `ready`
register resets to 1); and after a start pulse the FSM is in READ on the next
cycle while `ready` is STILL high there, because its deassertion is registered
— so sampling `ready` alone cannot distinguish the never-read initial state
from a completed read. -/
theorem wb_reset_ready_indistinguishable (i : Nat → WbInput)
    (h : (i 0).start = true) :
    (wbRun i 0).readyReg = true ∧ (wbRun i 0).dataReg = 0
    ∧ (wbRun i 1).fsmRead = true ∧ (wbRun i 1).readyReg = true := by
  refine ⟨rfl, rfl, ?_, ?_⟩
  · show (wbStep wbInit (i 0)).fsmRead = true
    simp [wbStep, wbInit, h]
  · show (wbStep wbInit (i 0)).readyReg = true
    simp [wbStep, wbInit]

/-- Witness for claim C10 at the concrete input stream. -/
theorem wb_reset_ready_indistinguishable_witness :
    (wbRun wbStreamEx 0).readyReg = true ∧ (wbRun wbStreamEx 0).dataReg = 0
    ∧ (wbRun wbStreamEx 1).fsmRead = true ∧ (wbRun wbStreamEx 1).readyReg = true :=
  wb_reset_ready_indistinguishable wbStreamEx rfl

/-- Claim C4: the activation state machine starts in IDLE; in IDLE it asserts
upstream `ready` unconditionally; with reset deasserted it moves from IDLE to
RUN exactly when the input sample satisfies
`valid && first && hcount == 0 && vcount == 0`; and the output `valid` can be
asserted only while the machine is in RUN. -/
theorem activation_gate_behavior (rst : Nat → Bool) (i : Nat → TimingIn)
    (r s : Bool) (inp : TimingIn) (hr : r = false) :
    gateRun rst i 0 = false
    ∧ gateReadyUp false inp = true
    ∧ (gateStep r false inp = true ↔ activationCond inp = true)
    ∧ (gateValidOut s inp = true → s = true) := by
  subst hr
  refine ⟨rfl, rfl, by simp [gateStep], ?_⟩
  intro h
  have h2 := h
  simp only [gateValidOut, Bool.and_eq_true] at h2
  exact h2.1

/-- Witness for claim C4 at a concrete reset stream, input stream, state and
sample. -/
theorem activation_gate_behavior_witness :
    gateRun (fun _ => false) (fun _ => timingEx) 0 = false
    ∧ gateReadyUp false timingEx = true
    ∧ (gateStep false false timingEx = true ↔ activationCond timingEx = true)
    ∧ (gateValidOut true timingEx = true → true = true) :=
  activation_gate_behavior (fun _ => false) (fun _ => timingEx) false true timingEx rfl

/-- Claim C5: while the activation state machine is in RUN, the output sample's
`valid`, `last`, `de`, `hsync`, `vsync` equal the same-cycle input fields
unchanged, and upstream `ready` equals downstream `ready`. -/
theorem run_passthrough_fields (s : Bool) (inp : TimingIn) (hs : s = true) :
    gateValidOut s inp = inp.valid ∧ gateLastOut s inp = inp.last
    ∧ gateDeOut s inp = inp.de ∧ gateHsyncOut s inp = inp.hsync
    ∧ gateVsyncOut s inp = inp.vsync ∧ gateReadyUp s inp = inp.sourceReady := by
  subst hs
  simp [gateValidOut, gateLastOut, gateDeOut, gateHsyncOut, gateVsyncOut, gateReadyUp]

/-- Witness for claim C5 in the RUN state at a concrete sample. -/
theorem run_passthrough_fields_witness :
    gateValidOut true timingEx = timingEx.valid
    ∧ gateLastOut true timingEx = timingEx.last
    ∧ gateDeOut true timingEx = timingEx.de
    ∧ gateHsyncOut true timingEx = timingEx.hsync
    ∧ gateVsyncOut true timingEx = timingEx.vsync
    ∧ gateReadyUp true timingEx = timingEx.sourceReady :=
  run_passthrough_fields true timingEx rfl

/-- Claim C7, refuted by the code: the two-register synchronizer output is the
enable delayed by two cycles, but the FSM reset the code drives is the negation
of the RAW same-cycle enable, not of the synchronized value — at the enable
stream 1,1,0,... observed at cycle 2 the code's reset is 1 while the reset the
claim describes is 0. -/
theorem enable_reset_unsynchronized :
    (∀ e t, mrS2 e (t + 2) = e t)
    ∧ mrS2 enableEx 2 = enableEx 0
    ∧ fsmResetClaim enableEx 2 = false
    ∧ fsmResetCode enableEx 2 = true :=
  ⟨fun _ _ => rfl, rfl, by decide, by decide⟩

/-- Claim C2: for every vsync stream and every cycle, starting from the reset
state (position (0,0), both directions increasing), the bouncing sprite's
position stays within `[0, hres - SPRITE_W] x [0, vres - SPRITE_H]` (lower
bounds hold since positions are naturals). -/
theorem moving_sprite_in_bounds (hres vres : Nat) (vs : Nat → Bool) (t : Nat)
    (hh : 17 ≤ hres) (hv : 17 ≤ vres) :
    (spriteRun hres vres vs t).x ≤ hres - 16 ∧ (spriteRun hres vres vs t).y ≤ vres - 16 := by
  have h := spriteRun_bound hres vres vs t hh hv
  omega

/-- Witness for claim C2 at the source's 640x480 resolution, an alternating
vsync stream and cycle 5. -/
theorem moving_sprite_in_bounds_witness :
    (spriteRun 640 480 vsyncStreamEx 5).x ≤ 640 - 16
    ∧ (spriteRun 640 480 vsyncStreamEx 5).y ≤ 480 - 16 :=
  moving_sprite_in_bounds 640 480 vsyncStreamEx 5 (by decide) (by decide)

/-- Claim C3, counterexample to the literal wording: at `x = 622` moving right
on a 640-wide screen, "advancing would place the sprite at" `623 =
640 - 16 - 1`, so the claim's wording demands a flip with the position held;
the code instead advances to 623 and keeps the direction. -/
theorem moving_sprite_step_literal_cex :
    claimSpriteStep 640 480 spriteCexSt true ≠ spriteStep 640 480 spriteCexSt true
    ∧ (spriteStep 640 480 spriteCexSt true).x = 623
    ∧ (spriteStep 640 480 spriteCexSt true).dirX = true
    ∧ (claimSpriteStep 640 480 spriteCexSt true).x = 622
    ∧ (claimSpriteStep 640 480 spriteCexSt true).dirX = false := by decide

/-- Claim C3 (amended): on a vsync rising edge each coordinate advances by one
unit in its current direction, except that when the position has already
reached `screenDim - spriteDim - 1` (moving up) the direction flips with the
position unchanged, and when the position is 0 (moving down) the direction
flips with the position unchanged; on any cycle without a rising edge the
position and direction are untouched — the code's step function is exactly
this rule. -/
theorem moving_sprite_step_amended (hres vres : Nat) (s : SpriteSt) (v : Bool) :
    spriteStep hres vres s v = amendedSpriteStep hres vres s v := by
  simp only [spriteStep, amendedSpriteStep, axisStep_eq_amended]

/-- Claim C1, refuted by the code: on the raster stream `hcount t = t` over a
tilemap whose first two tiles are distinct (ids 10 and 20), the tile index the
pipeline holds at cycle 16 is the one looked up for the coordinate of cycle 13
(the lookup path is `adr` register + synchronous read + `tile_id` register =
three cycles), while the pixel offsets come undelayed from cycle 16 itself.
The produced ROM address 2560 therefore equals neither the claimed formula at
the latency-compensated coordinate (2573 at cycle 13) nor at the current one
(5120 at cycle 16) — indeed it matches the formula under no uniform delay of
up to 8 cycles. -/
theorem tilemap_addr_latency_bug :
    (tmRun tilemapEx coordStreamEx 16).tileId
        = tilemapEx.getD (tilemapAddr (coordStreamEx 13)) 0
    ∧ tmRomAddr tilemapEx coordStreamEx 16 = 2560
    ∧ specRomAddr tilemapEx (coordStreamEx 13) = 2573
    ∧ specRomAddr tilemapEx (coordStreamEx 16) = 5120
    ∧ (∀ L, L ≤ 8 →
        tmRomAddr tilemapEx coordStreamEx 16 ≠ specRomAddr tilemapEx (coordStreamEx (16 - L))) := by
  decide

/-- Decoding one hex digit undoes encoding it, for digits below 16. -/
theorem hexVal_hexDigitChar : ∀ d, d < 16 → hexVal (hexDigitChar d) = d := by decide

/-- Or of disjoint binary ranges is addition: for `b < 2^k`,
`a * 2^k ||| b = a * 2^k + b`. -/
theorem timesPowLor (k : Nat) : ∀ a b : Nat, b < 2 ^ k → (a * 2 ^ k ||| b) = a * 2 ^ k + b := by
  induction k with
  | zero =>
    intro a b hb
    have hb0 : b = 0 := by simpa using hb
    subst hb0
    simp
  | succ k ih =>
    intro a b hb
    have hp : 2 ^ (k + 1) = 2 * 2 ^ k := by ring
    have hb2 : b / 2 < 2 ^ k := by omega
    have hbit1 : Nat.bit false (a * 2 ^ k) = a * 2 ^ (k + 1) := by
      rw [Nat.bit_val]
      simp
      ring
    have hbit2 : Nat.bit (decide (b % 2 = 1)) (b / 2) = b := by
      rw [Nat.bit_val]
      rcases Nat.mod_two_eq_zero_or_one b with h | h
      · simp [h]
        omega
      · simp [h]
        omega
    calc a * 2 ^ (k + 1) ||| b
        = Nat.bit false (a * 2 ^ k) ||| Nat.bit (decide (b % 2 = 1)) (b / 2) := by
          rw [hbit1, hbit2]
      _ = Nat.bit (false || decide (b % 2 = 1)) (a * 2 ^ k ||| b / 2) :=
          Nat.lor_bit false (a * 2 ^ k) (decide (b % 2 = 1)) (b / 2)
      _ = Nat.bit (decide (b % 2 = 1)) (a * 2 ^ k + b / 2) := by
          rw [Bool.false_or, ih a (b / 2) hb2]
      _ = a * 2 ^ (k + 1) + b := by
          rw [Nat.bit_val]
          have hr : a * 2 ^ (k + 1) = 2 * (a * 2 ^ k) := by ring
          rw [hr]
          rcases Nat.mod_two_eq_zero_or_one b with h | h
          · simp [h]
            omega
          · simp [h]
            omega

/-- Parsing the six-digit hex rendering recovers every value below `16^6`. -/
theorem parse_hex6 (n : Nat) (h : n < 16777216) : parseHexLine (hex6 n) = n := by
  have h5 := hexVal_hexDigitChar (n / 1048576 % 16) (Nat.mod_lt _ (by omega))
  have h4 := hexVal_hexDigitChar (n / 65536 % 16) (Nat.mod_lt _ (by omega))
  have h3 := hexVal_hexDigitChar (n / 4096 % 16) (Nat.mod_lt _ (by omega))
  have h2 := hexVal_hexDigitChar (n / 256 % 16) (Nat.mod_lt _ (by omega))
  have h1 := hexVal_hexDigitChar (n / 16 % 16) (Nat.mod_lt _ (by omega))
  have h0 := hexVal_hexDigitChar (n % 16) (Nat.mod_lt _ (by omega))
  simp only [parseHexLine, hex6, List.foldl]
  rw [h5, h4, h3, h2, h1, h0]
  omega

/-- Claim C8: for every RGB triple with channels below 256, encoding it to the
ROM line format (as `tileset_to_mem` does) and decoding the line back (base-16
parse followed by the `[16:24]`, `[8:16]`, `[0:8]` bit slices, as the sprite
loader and color outputs do) yields the original triple. -/
theorem rgb_roundtrip (r g b : Nat) (hr : r < 256) (hg : g < 256) (hb : b < 256) :
    decodeLine (encodeLine r g b) = (r, g, b) := by
  have p8 : (2 : Nat) ^ 8 = 256 := by norm_num
  have p16 : (2 : Nat) ^ 16 = 65536 := by norm_num
  have hval : (r <<< 16 ||| g <<< 8 ||| b) = r * 65536 + g * 256 + b := by
    rw [Nat.shiftLeft_eq, Nat.shiftLeft_eq, p16, p8]
    have e1 : r * 65536 ||| g * 256 = r * 65536 + g * 256 := by
      have e := timesPowLor 16 r (g * 256) (by rw [p16]; omega)
      rw [p16] at e
      exact e
    rw [e1]
    have e2 : r * 65536 + g * 256 = (r * 256 + g) * 256 := by ring
    rw [e2]
    have e3 := timesPowLor 8 (r * 256 + g) b (by rw [p8]; omega)
    rw [p8] at e3
    rw [e3]
  unfold decodeLine encodeLine
  rw [hval, parse_hex6 _ (by omega)]
  simp only [Prod.mk.injEq]
  refine ⟨by omega, by omega, by omega⟩

/-- Witness for claim C8 at the concrete triple (18, 52, 200). -/
theorem rgb_roundtrip_witness : decodeLine (encodeLine 18 52 200) = (18, 52, 200) :=
  rgb_roundtrip 18 52 200 (by decide) (by decide) (by decide)

/-- The fold over the four static boundaries 0, 160, 320, 480 selects the last
satisfied one. -/
theorem barIndex_eval (h : Nat) :
    barIndex 640 4 h = if h < 160 then 0 else if h < 320 then 1 else if h < 480 then 2 else 3 := by
  have e : List.range 4 = [0, 1, 2, 3] := by decide
  unfold barIndex barBoundary
  rw [e]
  simp only [List.foldl]
  norm_num
  split_ifs <;> omega

/-- getD on a replicated list hits the replicated element. -/
theorem replicate_getD (n a i : Nat) (h : i < n) : (List.replicate n a).getD i 0 = a := by
  rw [List.getD_eq_getElem _ _ (by rw [List.length_replicate]; exact h)]
  exact List.getElem_replicate _ _

/-- getD below 256 on a 256-element replicated prefix. -/
theorem getD_take256 (a : Nat) (l : List Nat) (idx : Nat) (h : idx < 256) :
    (List.replicate 256 a ++ l).getD idx 0 = a := by
  rw [List.getD_append _ _ _ _ (by rw [List.length_replicate]; exact h)]
  exact replicate_getD _ _ _ h

/-- getD at 256 or above skips a 256-element replicated prefix. -/
theorem getD_skip256 (a : Nat) (l : List Nat) (idx : Nat) (h : 256 ≤ idx) :
    (List.replicate 256 a ++ l).getD idx 0 = l.getD (idx - 256) 0 := by
  rw [List.getD_append_right _ _ _ _ (by rw [List.length_replicate]; exact h)]
  rw [List.length_replicate]

/-- Looking up pixel `off` of tile `i` in the four-solid-tile ROM yields that
tile's color. -/
theorem barsRom_lookup (i off : Nat) (hi : i < 4) (hoff : off < 256) :
    barsRomEx.getD (i * 256 + off) 0 =
      if i = 0 then 0xff0000 else if i = 1 then 0x00ff00
      else if i = 2 then 0x0000ff else 0xffffff := by
  unfold barsRomEx
  interval_cases i
  · rw [show (0 * 256 + off) = off from by omega, getD_take256 _ _ _ hoff]
    norm_num
  · rw [getD_skip256 _ _ _ (by omega)]
    rw [show (1 * 256 + off - 256) = off from by omega]
    rw [getD_take256 _ _ _ hoff]
    norm_num
  · rw [getD_skip256 _ _ _ (by omega)]
    rw [show (2 * 256 + off - 256) = 256 + off from by omega]
    rw [getD_skip256 _ _ _ (by omega)]
    rw [show (256 + off - 256) = off from by omega]
    rw [getD_take256 _ _ _ hoff]
    norm_num
  · rw [getD_skip256 _ _ _ (by omega)]
    rw [show (3 * 256 + off - 256) = 256 + (256 + off) from by omega]
    rw [getD_skip256 _ _ _ (by omega)]
    rw [show (256 + (256 + off) - 256) = 256 + off from by omega]
    rw [getD_skip256 _ _ _ (by omega)]
    rw [show (256 + off - 256) = off from by omega]
    rw [replicate_getD _ _ _ hoff]
    norm_num

/-- Claim C9 (spec-modelled BarsRenderer): with 4 equal-width stripes over a
640-wide screen and a 4-tile ROM of solid red, green, blue, white, every
visible pixel's color is the band of its `hcount`: red on `[0,160)`, green on
`[160,320)`, blue on `[320,480)`, white on `[480,640)`. -/
theorem bars_bands (h v : Nat) (hh : h < 640) (hv : v < 480) :
    barsRGB h v = if h < 160 then (255, 0, 0) else if h < 320 then (0, 255, 0)
      else if h < 480 then (0, 0, 255) else (255, 255, 255) := by
  have hoff : v % 16 * 16 + h % 16 < 256 := by
    have hx := Nat.mod_lt h (show 0 < 16 by norm_num)
    have hy := Nat.mod_lt v (show 0 < 16 by norm_num)
    omega
  by_cases h1 : h < 160
  · have hpix : barsPixel h v = 0xff0000 := by
      unfold barsPixel barsRomAddr
      rw [barIndex_eval, if_pos h1]
      rw [show (0 : Nat) * (16 * 16) + v % 16 * 16 + h % 16
            = 0 * 256 + (v % 16 * 16 + h % 16) from by ring]
      rw [barsRom_lookup 0 _ (by omega) hoff]
      norm_num
    unfold barsRGB
    rw [hpix, if_pos h1]
  · by_cases h2 : h < 320
    · have hpix : barsPixel h v = 0x00ff00 := by
        unfold barsPixel barsRomAddr
        rw [barIndex_eval, if_neg h1, if_pos h2]
        rw [show (1 : Nat) * (16 * 16) + v % 16 * 16 + h % 16
              = 1 * 256 + (v % 16 * 16 + h % 16) from by ring]
        rw [barsRom_lookup 1 _ (by omega) hoff]
        norm_num
      unfold barsRGB
      rw [hpix, if_neg h1, if_pos h2]
    · by_cases h3 : h < 480
      · have hpix : barsPixel h v = 0x0000ff := by
          unfold barsPixel barsRomAddr
          rw [barIndex_eval, if_neg h1, if_neg h2, if_pos h3]
          rw [show (2 : Nat) * (16 * 16) + v % 16 * 16 + h % 16
                = 2 * 256 + (v % 16 * 16 + h % 16) from by ring]
          rw [barsRom_lookup 2 _ (by omega) hoff]
          norm_num
        unfold barsRGB
        rw [hpix, if_neg h1, if_neg h2, if_pos h3]
      · have hpix : barsPixel h v = 0xffffff := by
          unfold barsPixel barsRomAddr
          rw [barIndex_eval, if_neg h1, if_neg h2, if_neg h3]
          rw [show (3 : Nat) * (16 * 16) + v % 16 * 16 + h % 16
                = 3 * 256 + (v % 16 * 16 + h % 16) from by ring]
          rw [barsRom_lookup 3 _ (by omega) hoff]
          norm_num
        unfold barsRGB
        rw [hpix, if_neg h1, if_neg h2, if_neg h3]

/-- Witness for claim C9: the pixel at `hcount = 479`, `vcount = 3` lies in
the third band and is blue. -/
theorem bars_bands_witness : barsRGB 479 3 = (0, 0, 255) := by
  have hw := bars_bands 479 3 (by norm_num) (by norm_num)
  norm_num at hw
  exact hw
